import Mathlib

set_option maxHeartbeats 1000000
set_option maxRecDepth 2000

namespace Scraptor

/-! Shallow embedding of the scraptor capture engine (DXGI desktop duplication
driver).  The Windows backend (DXGI/D3D11 COM interfaces) is external to the
repository; each backend call is modelled by an explicit response value passed
to the embedded function, and the sequence of backend calls a function issues
is returned as an explicit event log, following the spec's mock-backend
abstraction (spec paragraph 9: capability interface for acquire, release, map,
copy-readback, query-changed-regions). -/

/-- Cast of a Rust i32 value to u32 (two's complement reinterpretation),
as in `self.rect.Pitch as u32` in `DxgiDisplayCapturer::get_frame`. -/
def u32ofInt (i : Int) : Nat := (i % 2 ^ 32).toNat

/-- Cast of a Rust i32 value to usize (64-bit, sign-extending), as in
`rect.Pitch as usize` in `Dx11FrameData::get_bytes` and
`(right - left) as usize` in `DxgiDisplay::width`. -/
def usizeOfInt (i : Int) : Nat := (i % 2 ^ 64).toNat

/-- Wrap an unbounded integer to the i32 value range, modelling Rust i32
wrap-around arithmetic. -/
def toI32 (x : Int) : Int := (x + 2 ^ 31) % 2 ^ 32 - 2 ^ 31

/-- Win32 RECT: `{ left, top, right, bottom }`, i32 fields. -/
structure RECT where
  left : Int
  top : Int
  right : Int
  bottom : Int
  deriving DecidableEq

/-- A POINT as used by `DXGI_OUTDUPL_MOVE_RECT.SourcePoint`. -/
structure POINT where
  x : Int
  y : Int
  deriving DecidableEq

/-- DXGI_OUTDUPL_MOVE_RECT: destination rectangle plus source point. -/
structure DXGI_OUTDUPL_MOVE_RECT where
  SourcePoint : POINT
  DestinationRect : RECT
  deriving DecidableEq

/-- Modelled from the spec: the crate-level `DirtyRect` value type is not
present under src/ (only its construction sites in
`DxgiFrame::get_dirty_rects` are); per spec section 3 it is
`{top, left, right, bottom}` in pixel coordinates.  The `new` constructor
argument order `(top, right, bottom, left)` is taken from the call sites in
src/src/driver/dxgi/frame.rs. -/
structure DirtyRect where
  top : Int
  right : Int
  bottom : Int
  left : Int
  deriving DecidableEq

/-- Constructor mirroring `DirtyRect::new(top, right, bottom, left)`. -/
def DirtyRect.new (top right bottom left : Int) : DirtyRect :=
  ⟨top, right, bottom, left⟩

/-- Modelled from the spec: crate-level `MovedPoint` (not under src/),
spec section 3 `sourceOrigin: {x, y}`. -/
structure MovedPoint where
  x : Int
  y : Int
  deriving DecidableEq

/-- Constructor mirroring `MovedPoint::new(x, y)`. -/
def MovedPoint.new (x y : Int) : MovedPoint := ⟨x, y⟩

/-- Modelled from the spec: crate-level `MovedRect` (not under src/),
spec section 3 `{destination: DirtyRect, sourceOrigin: {x, y}}`. -/
structure MovedRect where
  destination : DirtyRect
  source : MovedPoint
  deriving DecidableEq

/-- Constructor mirroring `MovedRect::new(destination, source)`. -/
def MovedRect.new (destination : DirtyRect) (source : MovedPoint) : MovedRect :=
  ⟨destination, source⟩

/-- `FrameError` from src/src/driver/dxgi/errors.rs.  Backend HRESULT codes
are modelled as `Int`.  The `None` constructor mirrors the `FrameError::None`
value used by src/src/driver/dxgi/capture.rs for a missing resource after a
successful call (the spec's `InvariantViolation`); it is absent from the
errors.rs revision in the tree (revision skew acknowledged by the spec). -/
inductive FrameError where
  | WouldBlock : FrameError
  | AcquireFrame (code : Int) : FrameError
  | ReleaseFrame (code : Int) : FrameError
  | Unexpected (code : Int) : FrameError
  | None : FrameError
  deriving DecidableEq

/-- DXGI_MAPPED_RECT: only the fields the source reads are modelled
(`Pitch : i32`; the `pBits` pointer is represented only through the byte
length derived from it). -/
structure DXGI_MAPPED_RECT where
  pitch : Int
  deriving DecidableEq

/-- The `DXGI_OUTDUPL_DESC` fields read by the capturer:
`DesktopImageInSystemMemory` and `ModeDesc.Height` (a u32). -/
structure DXGI_OUTDUPL_DESC where
  desktopImageInSystemMemory : Bool
  modeHeight : Nat
  deriving DecidableEq

/-- `DxgiDisplayCapturer` state (src/src/driver/dxgi/capture.rs): the scratch
mapped rect, the duplication descriptor, and the held-frame flag.  The COM
handles (device, context, duplication) carry no model state; the duplication
session is the backend itself. -/
structure Capturer where
  rect : DXGI_MAPPED_RECT
  desc : DXGI_OUTDUPL_DESC
  has_frame : Bool
  deriving DecidableEq

deriving instance DecidableEq for Except

/-- An acquired IDXGIResource; `castResult` models the fallible
`resource.cast::<ID3D11Texture2D>()`. -/
structure GpuResource where
  castResult : Except Int Unit
  deriving DecidableEq

/-- Outcome of one backend `AcquireNextFrame` call: the timeout elapsed
(DXGI_ERROR_WAIT_TIMEOUT), another failure HRESULT, or success with an
optional resource. -/
inductive AcquireResult where
  | timeout : AcquireResult
  | failure (code : Int) : AcquireResult
  | success (resource : Option GpuResource) : AcquireResult
  deriving DecidableEq

/-- Backend responses consumed by one `get_frame` call: the acquire outcome
and (for the system-memory path) the `MapDesktopSurface` outcome. -/
structure AcquireResponse where
  acquire : AcquireResult
  mapResult : Except Int DXGI_MAPPED_RECT
  deriving DecidableEq

/-- Backend calls issued by the capturer, in order.  `acquire ok` records an
`AcquireNextFrame` call together with whether it succeeded. -/
inductive BackendEv where
  | unmapSurface : BackendEv
  | releaseFrame : BackendEv
  | acquire (timeoutMs : Nat) (ok : Bool) : BackendEv
  | mapSurface : BackendEv
  deriving DecidableEq

/-- The frame data produced by one `get_frame` call
(src/src/driver/dxgi/frame.rs `DxgiFrameData`): either a borrowed
system-memory slice (modelled by its byte length) or a GPU texture view. -/
inductive DxgiFrameData where
  | Memory (len : Nat) : DxgiFrameData
  | DirectX (texture : Unit) : DxgiFrameData
  deriving DecidableEq

/-- `DxgiDisplayCapturer::get_frame` (src/src/driver/dxgi/capture.rs lines
99-161).  Returns the backend call log, the new capturer state and the
result.  Mirrors the source exactly: release the previously held frame first
(unmapping first when the desktop image is in system memory, both with errors
ignored), then `AcquireNextFrame`; a wait-timeout becomes `WouldBlock`, any
other failure propagates; on success set `has_frame`, then either map the
system-memory surface and build a `Memory` frame of byte length
`ModeDesc.Height * (Pitch as u32)` (u32 arithmetic), or cast the resource to
a texture, with a missing resource reported as `FrameError::None`. -/
def get_frame (c : Capturer) (timeoutMs : Nat) (resp : AcquireResponse) :
    List BackendEv × Capturer × Except FrameError DxgiFrameData :=
  let rel :=
    if c.has_frame then
      ((if c.desc.desktopImageInSystemMemory then [BackendEv.unmapSurface] else [])
          ++ [BackendEv.releaseFrame],
        { c with has_frame := false })
    else ([], c)
  let preLog := rel.1
  let c1 := rel.2
  match resp.acquire with
  | AcquireResult.timeout =>
      (preLog ++ [BackendEv.acquire timeoutMs false], c1, Except.error FrameError.WouldBlock)
  | AcquireResult.failure code =>
      (preLog ++ [BackendEv.acquire timeoutMs false], c1, Except.error (FrameError.Unexpected code))
  | AcquireResult.success resource =>
      let c2 := { c1 with has_frame := true }
      if c2.desc.desktopImageInSystemMemory then
        match resp.mapResult with
        | Except.error code =>
            (preLog ++ [BackendEv.acquire timeoutMs true, BackendEv.mapSurface], c2,
              Except.error (FrameError.Unexpected code))
        | Except.ok rect =>
            let c3 := { c2 with rect := rect }
            let len := c3.desc.modeHeight * u32ofInt rect.pitch % 2 ^ 32
            (preLog ++ [BackendEv.acquire timeoutMs true, BackendEv.mapSurface], c3,
              Except.ok (DxgiFrameData.Memory len))
      else
        match resource with
        | some r =>
            match r.castResult with
            | Except.ok _ =>
                (preLog ++ [BackendEv.acquire timeoutMs true], c2,
                  Except.ok (DxgiFrameData.DirectX ()))
            | Except.error code =>
                (preLog ++ [BackendEv.acquire timeoutMs true], c2,
                  Except.error (FrameError.Unexpected code))
        | none =>
            (preLog ++ [BackendEv.acquire timeoutMs true], c2, Except.error FrameError.None)

/-- Run a sequence of `get_frame` calls on one capturer, concatenating the
backend call logs and collecting the per-call results. -/
def run : Capturer → List (Nat × AcquireResponse) →
    List BackendEv × List (Except FrameError DxgiFrameData) × Capturer
  | c, [] => ([], [], c)
  | c, (t, r) :: rest =>
      let out := get_frame c t r
      let next := run out.2.1 rest
      (out.1 ++ next.1, out.2.2 :: next.2.1, next.2.2)

/-- Number of unreleased successful acquires after processing one more
backend event, starting from `n` outstanding. -/
def outsStep (n : Nat) (e : BackendEv) : Nat :=
  match e with
  | BackendEv.acquire _ true => n + 1
  | BackendEv.releaseFrame => n - 1
  | _ => n

/-- Number of unreleased successful acquires after a whole event list. -/
def outsAfter (n : Nat) (l : List BackendEv) : Nat := l.foldl outsStep n

/-- Checks the acquire/release call-order invariant over an event list,
starting with `n` frames outstanding: every `AcquireNextFrame` call must be
issued with zero unreleased frames outstanding. -/
def chkFrom : Nat → List BackendEv → Bool
  | _, [] => true
  | n, e :: t =>
      (match e with
       | BackendEv.acquire _ _ => n == 0
       | _ => true)
      && chkFrom (outsStep n e) t

/-- Outstanding-frame count corresponding to the `has_frame` flag. -/
def frameFlag (c : Capturer) : Nat := if c.has_frame then 1 else 0

/-! ### Change-region extractor (src/src/driver/dxgi/frame.rs) -/

/-- Default rectangle buffer size in `get_dirty_rects`/`get_moved_rects`. -/
def RECT_BUF_LEN : Nat := 16

/-- Maximum additional rectangle buffer growth: `7000 - RECT_BUF_LEN`. -/
def RECT_BUF_MAX_LEN : Nat := 7000 - RECT_BUF_LEN

/-- Backend response to one `GetFrameDirtyRects`/`GetFrameMoveRects` call:
either a failure HRESULT (the call writes nothing and leaves the caller's
count variable untouched), or success, in which case the backend holds the
full entry list `entries`, writes the first `min (buffer length) (entries
length)` of them into the caller's buffer and reports `entries.length` as the
wanted count.  This is the spec's section 4.4 backend contract (the real
backend is the external DXGI API). -/
inductive RectQueryResp (α : Type) where
  | failure (code : Int) : RectQueryResp α
  | success (entries : List α) : RectQueryResp α

/-- One backend rectangle query against a caller buffer `buf` whose current
reported-count variable is `len`: returns the updated buffer (same capacity)
and the updated count variable. -/
def queryRects {α : Type} (buf : List α) (len : Nat) (resp : RectQueryResp α) :
    List α × Nat :=
  match resp with
  | RectQueryResp.failure _ => (buf, len)
  | RectQueryResp.success rs =>
      (rs.take buf.length ++ buf.drop (min buf.length rs.length), rs.length)

/-- Core of `DxgiFrame::get_dirty_rects` / `get_moved_rects`
(src/src/driver/dxgi/frame.rs lines 80-118 and 120-168), polymorphic in the
entry type since the two functions are textually identical up to it:
allocate a `RECT_BUF_LEN`-entry scratch buffer, query (ignoring the result
code), grow by `min RECT_BUF_MAX_LEN (reported - capacity)` (saturating
subtraction) and re-query once if the reported count exceeded the capacity,
then return the first `reported` entries of the buffer, converted by `conv`.
Result: (number of backend queries issued, final buffer capacity,
returned entries). -/
def getRectsCore {α β : Type} (dflt : α) (conv : α → β)
    (resp1 resp2 : RectQueryResp α) : Nat × Nat × List β :=
  let buf0 := List.replicate RECT_BUF_LEN dflt
  let q1 := queryRects buf0 0 resp1
  let buf1 := q1.1
  let len1 := q1.2
  let more := min RECT_BUF_MAX_LEN (len1 - buf1.length)
  if 0 < more then
    let buf2 := buf1 ++ List.replicate more dflt
    let q2 := queryRects buf2 len1 resp2
    (2, buf2.length, (q2.1.take q2.2).map conv)
  else
    (1, buf1.length, (buf1.take len1).map conv)

/-- `DxgiFrame::get_dirty_rects`: entries are `RECT`s, converted by
`DirtyRect::new(rect.top, rect.right, rect.bottom, rect.left)`. -/
def get_dirty_rects (resp1 resp2 : RectQueryResp RECT) : Nat × Nat × List DirtyRect :=
  getRectsCore ⟨0, 0, 0, 0⟩
    (fun rect => DirtyRect.new rect.top rect.right rect.bottom rect.left) resp1 resp2

/-- `DxgiFrame::get_moved_rects`: entries are `DXGI_OUTDUPL_MOVE_RECT`s,
converted by `MovedRect::new(DirtyRect::new(..), MovedPoint::new(..))`. -/
def get_moved_rects (resp1 resp2 : RectQueryResp DXGI_OUTDUPL_MOVE_RECT) :
    Nat × Nat × List MovedRect :=
  getRectsCore ⟨⟨0, 0⟩, ⟨0, 0, 0, 0⟩⟩
    (fun moved =>
      MovedRect.new
        (DirtyRect.new moved.DestinationRect.top moved.DestinationRect.right
          moved.DestinationRect.bottom moved.DestinationRect.left)
        (MovedPoint.new moved.SourcePoint.x moved.SourcePoint.y)) resp1 resp2

/-! ### GPU readback (src/src/driver/dx11/frame.rs) -/

/-- D3D11_USAGE_STAGING. -/
def D3D11_USAGE_STAGING : Nat := 3

/-- D3D11_CPU_ACCESS_READ. -/
def D3D11_CPU_ACCESS_READ : Nat := 0x20000

/-- DXGI_RESOURCE_PRIORITY_MAXIMUM. -/
def DXGI_RESOURCE_PRIORITY_MAXIMUM : Nat := 0xc8000000

/-- DXGI_MAP_READ. -/
def DXGI_MAP_READ : Nat := 1

/-- The D3D11_TEXTURE2D_DESC fields `get_bytes`/`get_surface` read or write;
`height` and `width` are u32. -/
structure D3D11_TEXTURE2D_DESC where
  width : Nat
  height : Nat
  usage : Nat
  bindFlags : Nat
  miscFlags : Nat
  cpuAccessFlags : Nat
  deriving DecidableEq

/-- Device/context calls issued during GPU readback, in order. -/
inductive Dx11Ev where
  | getDesc : Dx11Ev
  | createTexture (desc : D3D11_TEXTURE2D_DESC) : Dx11Ev
  | setEvictionPriority (priority : Nat) : Dx11Ev
  | copyResource : Dx11Ev
  | map (flags : Nat) : Dx11Ev
  | unmap : Dx11Ev
  | readBytes (len : Nat) : Dx11Ev
  deriving DecidableEq

/-- Count of an event in a readback call log. -/
def countEv (e : Dx11Ev) (l : List Dx11Ev) : Nat :=
  (l.filter (fun x => decide (x = e))).length

/-- Readback errors: a backend HRESULT (via `anyhow`), or the
`anyhow::bail!` for a `None` staging texture. -/
inductive ReadbackErr where
  | winerr (code : Int) : ReadbackErr
  | textureNone : ReadbackErr
  deriving DecidableEq

/-- Backend responses consumed by one `Dx11FrameData::get_bytes` call: the
source texture descriptor, the `CreateTexture2D` outcome (failure HRESULT,
or success with an optional texture), the `cast::<IDXGISurface>` outcome and
the `Map` outcome. -/
structure ReadbackResp where
  srcDesc : D3D11_TEXTURE2D_DESC
  createResult : Except Int (Option Unit)
  castResult : Except Int Unit
  mapResult : Except Int DXGI_MAPPED_RECT
  deriving DecidableEq

/-- `Dx11FrameData::get_surface` (src/src/driver/dx11/frame.rs lines 47-73):
read the source descriptor, derive the staging descriptor (staging usage, no
bind flags, no misc flags, CPU read access), create the staging texture
(failure or `None` is fatal), set maximum eviction priority, copy the source
into it, and cast it to a surface. -/
def get_surface (r : ReadbackResp) : List Dx11Ev × Except ReadbackErr Unit :=
  let stagingDesc :=
    { r.srcDesc with
        usage := D3D11_USAGE_STAGING
        bindFlags := 0
        miscFlags := 0
        cpuAccessFlags := D3D11_CPU_ACCESS_READ }
  let log := [Dx11Ev.getDesc, Dx11Ev.createTexture stagingDesc]
  match r.createResult with
  | Except.error code => (log, Except.error (ReadbackErr.winerr code))
  | Except.ok none => (log, Except.error ReadbackErr.textureNone)
  | Except.ok (some _) =>
      let log := log ++
        [Dx11Ev.setEvictionPriority DXGI_RESOURCE_PRIORITY_MAXIMUM, Dx11Ev.copyResource]
      match r.castResult with
      | Except.error code => (log, Except.error (ReadbackErr.winerr code))
      | Except.ok _ => (log, Except.ok ())

/-- `Dx11FrameData::get_bytes` (src/src/driver/dx11/frame.rs lines 31-45):
read the source descriptor, build the staging surface via `get_surface`, map
it for read, compute `len = desc.Height as usize * rect.Pitch as usize`
(usize arithmetic, with the i32 pitch sign-extended) and copy `len` bytes
into a fresh owned buffer.  No unmap call is issued.  The owned buffer is
modelled by its length. -/
def get_bytes (r : ReadbackResp) : List Dx11Ev × Except ReadbackErr Nat :=
  let log := [Dx11Ev.getDesc]
  let surf := get_surface r
  match surf.2 with
  | Except.error e => (log ++ surf.1, Except.error e)
  | Except.ok _ =>
      match r.mapResult with
      | Except.error code =>
          (log ++ surf.1 ++ [Dx11Ev.map DXGI_MAP_READ], Except.error (ReadbackErr.winerr code))
      | Except.ok rect =>
          let len := r.srcDesc.height * usizeOfInt rect.pitch % 2 ^ 64
          (log ++ surf.1 ++ [Dx11Ev.map DXGI_MAP_READ, Dx11Ev.readBytes len],
            Except.ok len)

/-- A materialized byte buffer as returned by `as_bytes`
(`Cow::Borrowed` for memory frames, `Cow::Owned` for GPU readback),
modelled by its length. -/
inductive Bytes where
  | borrowed (len : Nat) : Bytes
  | owned (len : Nat) : Bytes
  deriving DecidableEq

/-- `DxgiFrame::as_bytes` (src/src/driver/dxgi/frame.rs lines 62-67): a
memory frame returns the borrowed mapped slice as is; a GPU frame triggers
`get_bytes` (no caching), returning the readback call log alongside. -/
def DxgiFrame_as_bytes (d : DxgiFrameData) (r : ReadbackResp) :
    List Dx11Ev × Except ReadbackErr Bytes :=
  match d with
  | DxgiFrameData.Memory len => ([], Except.ok (Bytes.borrowed len))
  | DxgiFrameData.DirectX _ =>
      let out := get_bytes r
      (out.1, out.2.map Bytes.owned)

/-! ### Display geometry and lazy capturer construction
(src/src/driver/dxgi/display.rs) -/

/-- `DxgiDisplay::width`: `(right - left) as usize` on the i32 descriptor
coordinates (i32 subtraction, then sign-extending cast to usize). -/
def display_width (desc : RECT) : Nat := usizeOfInt (toI32 (desc.right - desc.left))

/-- `DxgiDisplay::height`: `(bottom - top) as usize`. -/
def display_height (desc : RECT) : Nat := usizeOfInt (toI32 (desc.bottom - desc.top))

/-- Result of running code that may hit a Rust `unwrap()` on an `Err`:
`crashed` models the resulting panic (the function never returns). -/
inductive UnwrapResult (α : Type) where
  | crashed : UnwrapResult α
  | value (a : α) : UnwrapResult α
  deriving DecidableEq

/-- `DxgiDisplay::capturer_mut` (src/src/driver/dxgi/display.rs lines 41-52):
if no capturer exists yet, construct one — with `.unwrap()`, so a
construction failure panics instead of returning the error — then hand out
the (now existing) capturer.  `newResult` is the outcome
`DxgiDisplayCapturer::new` would produce. -/
def capturer_mut (capturer : Option Capturer)
    (newResult : Except FrameError Capturer) :
    UnwrapResult (Capturer × Option Capturer) :=
  match capturer with
  | some c => UnwrapResult.value (c, some c)
  | none =>
      match newResult with
      | Except.ok c => UnwrapResult.value (c, some c)
      | Except.error _ => UnwrapResult.crashed

/-- The fixed 8 ms timeout used by `DxgiDisplay::frame` (`FPS_124`). -/
def FPS_124 : Nat := 8

/-- `Display::frame` for `DxgiDisplay` (src/src/driver/dxgi/display.rs lines
66-75): obtain the capturer via `capturer_mut` and call `get_frame` with the
fixed 8 ms timeout, propagating its result.  Returns the updated capturer
slot and the frame result (unless capturer construction panicked). -/
def display_frame (capturer : Option Capturer)
    (newResult : Except FrameError Capturer) (resp : AcquireResponse) :
    UnwrapResult (Option Capturer × Except FrameError DxgiFrameData) :=
  match capturer_mut capturer newResult with
  | UnwrapResult.crashed => UnwrapResult.crashed
  | UnwrapResult.value (c, _) =>
      let out := get_frame c FPS_124 resp
      UnwrapResult.value (some out.2.1, out.2.2)

/-! ### Output enumerator (src/src/driver/dxgi/display.rs lines 80-178) -/

/-- A backend adapter/output topology for the mock DXGI factory: one entry
per adapter ordinal, each listing the desktop-coordinate descriptors of its
outputs by output ordinal. -/
abbrev Topo := List (List RECT)

/-- Mock `IDXGIFactory1::EnumAdapters1`: adapter ordinals below the adapter
count exist (the handle is the ordinal); every other ordinal reports
DXGI_ERROR_NOT_FOUND, modelled as `none`. -/
def EnumAdapters1 (T : Topo) (idx : Nat) : Option Nat :=
  if idx < T.length then some idx else none

/-- Mock `IDXGIAdapter1::EnumOutputs`: output ordinals below the adapter's
output count yield an output whose `GetDesc` succeeds with the stored
descriptor (and whose `cast` to `IDXGIOutput1` succeeds); every other
ordinal reports DXGI_ERROR_NOT_FOUND, modelled as `none`. -/
def EnumOutputs (T : Topo) (a : Nat) (o : Nat) : Option RECT := (T.getD a [])[o]?

/-- `DxgiDisplays` iterator state: the loaded adapter (`None` until the next
`EnumAdapters1` call), the adapter ordinal and the output ordinal. -/
structure EnumState where
  adapter : Option Nat
  adapter_idx : Nat
  display_idx : Nat
  deriving DecidableEq

/-- `DxgiDisplay` as produced by enumeration: descriptor, output handle
(modelled by the output ordinal it was enumerated at), adapter handle
(modelled by the adapter ordinal) and the lazily-created capturer slot,
`None` at enumeration time. -/
structure DxgiDisplay where
  desc : RECT
  output : Nat
  adapter : Nat
  capturer : Option Capturer
  deriving DecidableEq

/-- `DxgiDisplays::next_display` (src/src/driver/dxgi/display.rs lines
101-169).  Mirrors the source: load the adapter at `adapter_idx` if none is
loaded (NOT_FOUND ends enumeration with `Ok(None)`); then enumerate the
output at `display_idx`; on NOT_FOUND, advance to the next adapter ordinal,
reset the output ordinal and recurse — the source's self-recursion, kept as
recursion here; on success, read the descriptor, bump `display_idx` and
yield the display.  The third component counts the invocations of
`next_display` this call performed (1 plus the self-recursion depth), for
reasoning about the recursion.  The mock backend never fails fatally, so the
`windows::Result` error case of the source does not arise. -/
def next_display (T : Topo) (s : EnumState) : Option DxgiDisplay × EnumState × Nat :=
  match hl : (match s.adapter with
              | some _ => some s
              | none =>
                  match EnumAdapters1 T s.adapter_idx with
                  | none => none
                  | some a => some { s with adapter := some a }) with
  | none => (none, s, 1)
  | some s1 =>
      match s1.adapter with
      | none => (none, s1, 1)
      | some a =>
          match EnumOutputs T a s1.display_idx with
          | none =>
              let s2 : EnumState := ⟨none, s1.adapter_idx + 1, 0⟩
              let r := next_display T s2
              (r.1, r.2.1, r.2.2 + 1)
          | some desc =>
              (some ⟨desc, s1.display_idx, a, none⟩,
                { s1 with display_idx := s1.display_idx + 1 }, 1)
termination_by (T.length + 1) - s.adapter_idx + (if s.adapter.isSome then 1 else 0)
decreasing_by
  rcases hadp : s.adapter with _ | a0
  · simp only [hadp, EnumAdapters1] at hl
    by_cases hlt : s.adapter_idx < T.length
    · rw [if_pos hlt] at hl
      injection hl with h1
      subst h1
      simp only [hadp, Option.isSome_none, Option.isSome_some]
      omega
    · rw [if_neg hlt] at hl
      exact Option.noConfusion hl
  · simp only [hadp] at hl
    injection hl with h1
    subst h1
    simp [hadp]
    omega

/-- The initial `DxgiDisplays` state after `DxgiDisplays::new`. -/
def initEnumState : EnumState := ⟨none, 0, 0⟩

/-- `k` successive `Iterator::next` calls on the enumerator, collecting the
yielded items (`none` meaning the iterator reported no more items). -/
def runNext (T : Topo) : EnumState → Nat → List (Option DxgiDisplay) × EnumState
  | s, 0 => ([], s)
  | s, k + 1 =>
      let r := next_display T s
      let rest := runNext T r.2.1 k
      (r.1 :: rest.1, rest.2)

/-- The displays of adapter `a` of topology `T`, in output-ordinal order. -/
def adapterOutputs (T : Topo) (a : Nat) : List DxgiDisplay :=
  (List.range (T.getD a []).length).map
    (fun o => ⟨(T.getD a []).getD o ⟨0, 0, 0, 0⟩, o, a, none⟩)

/-- All displays of adapters `a, a+1, ...` of `T`, in adapter-major,
output-minor order. -/
def expectedTail (T : Topo) (a : Nat) : List DxgiDisplay :=
  (List.range' a (T.length - a)).flatMap (adapterOutputs T)

/-- The displays an enumerator in state `s` has yet to yield. -/
def remDisplays (T : Topo) (s : EnumState) : List DxgiDisplay :=
  match s.adapter with
  | none => expectedTail T s.adapter_idx
  | some a => (adapterOutputs T a).drop s.display_idx ++ expectedTail T (a + 1)

/-- Invariant on reachable enumerator states: with no adapter loaded the
output ordinal is zero; with adapter `a` loaded, `a` is the current adapter
ordinal, exists in the topology, and the output ordinal is at most its
output count. -/
def enumInv (T : Topo) (s : EnumState) : Prop :=
  match s.adapter with
  | none => s.display_idx = 0
  | some a => a = s.adapter_idx ∧ a < T.length ∧ s.display_idx ≤ (T.getD a []).length

/-- The uniform topology of the spec's enumeration property: `N` adapters
with `M` outputs each, with descriptor `f a o` for output `o` of adapter
`a`. -/
def uniformTopo (N M : Nat) (f : Nat → Nat → RECT) : Topo :=
  (List.range N).map (fun a => (List.range M).map (f a))

/-- The displays a full enumeration of `uniformTopo N M f` should yield, in
adapter-major, output-minor order. -/
def uniformExpected (N M : Nat) (f : Nat → Nat → RECT) : List DxgiDisplay :=
  (List.range N).flatMap
    (fun a => (List.range M).map (fun o => ⟨f a o, o, a, none⟩))

/-! ### Concrete sample values used by witnesses and counterexamples -/

/-- A freshly constructed capturer for a system-memory-resident desktop of
mode height 4, holding no frame. -/
def sampleCapturer : Capturer := ⟨⟨0⟩, ⟨true, 4⟩, false⟩

/-- A backend response whose acquire call reports a wait timeout. -/
def sampleResp : AcquireResponse := ⟨AcquireResult.timeout, Except.ok ⟨0⟩⟩

/-- A fully successful readback response: 8x4 source texture, pitch 1024. -/
def sampleReadback : ReadbackResp :=
  ⟨⟨8, 4, 0, 5, 2, 0⟩, Except.ok (some ()), Except.ok (), Except.ok ⟨1024⟩⟩

/-- A capturer whose mode height (65536) overflows u32 length arithmetic
when combined with a pitch of 65536. -/
def overflowCapturer : Capturer := ⟨⟨0⟩, ⟨true, 65536⟩, false⟩

/-- A successful acquire whose mapped surface reports pitch 65536. -/
def overflowResp : AcquireResponse :=
  ⟨AcquireResult.success none, Except.ok ⟨65536⟩⟩

/-- An output descriptor violating `right ≥ left` (left 10, right 0). -/
def badRECT : RECT := ⟨10, 0, 0, 0⟩

/-! ## Theorems -/

/-- C2: a capturer in state Idle (`has_frame = false`) receiving a
wait-timeout from `AcquireNextFrame` returns `WouldBlock` with the state
completely unchanged, and repeating the call against a backend with no
pending frame returns `WouldBlock` every time with no state change — the
run over `k` identical timeout responses produces `k` `WouldBlock` results,
`k` failed acquire calls and the original capturer state. -/
theorem get_frame_wouldblock_idempotent (c : Capturer) (h : c.has_frame = false)
    (m : Except Int DXGI_MAPPED_RECT) :
    (∀ t, get_frame c t ⟨AcquireResult.timeout, m⟩
        = ([BackendEv.acquire t false], c, Except.error FrameError.WouldBlock))
    ∧ ∀ k t, run c (List.replicate k (t, ⟨AcquireResult.timeout, m⟩))
        = (List.replicate k (BackendEv.acquire t false),
           List.replicate k (Except.error FrameError.WouldBlock), c) := by
  have h1 : ∀ t, get_frame c t ⟨AcquireResult.timeout, m⟩
      = ([BackendEv.acquire t false], c, Except.error FrameError.WouldBlock) := by
    intro t
    simp [get_frame, h]
  refine ⟨h1, fun k t => ?_⟩
  induction k with
  | zero => simp [run]
  | succ n ih => simp [List.replicate_succ, run, h1, ih]

/-- C2 witness: three zero-timeout calls on the sample idle capturer. -/
theorem get_frame_wouldblock_idempotent_witness :
    run sampleCapturer (List.replicate 3 (0, ⟨AcquireResult.timeout, Except.ok ⟨0⟩⟩))
      = (List.replicate 3 (BackendEv.acquire 0 false),
         List.replicate 3 (Except.error FrameError.WouldBlock), sampleCapturer) :=
  (get_frame_wouldblock_idempotent sampleCapturer rfl (Except.ok ⟨0⟩)).2 3 0

/-- C8 (code bug): `capturer_mut` declares `Result<_, FrameError>` but calls
`.unwrap()` on `DxgiDisplayCapturer::new`, so when construction fails with a
fatal error, `frame()` panics instead of returning the error to its caller;
when a capturer already exists it is reused without reconstruction, and
`get_frame` errors do bubble unchanged. -/
theorem display_frame_construction_failure_panics :
    display_frame none (Except.error (FrameError.Unexpected 1)) sampleResp
        = UnwrapResult.crashed
    ∧ capturer_mut (some sampleCapturer) (Except.error (FrameError.Unexpected 1))
        = UnwrapResult.value (sampleCapturer, some sampleCapturer)
    ∧ display_frame (some sampleCapturer) (Except.error (FrameError.Unexpected 1)) sampleResp
        = UnwrapResult.value (some sampleCapturer, Except.error FrameError.WouldBlock) :=
  ⟨rfl, rfl, rfl⟩

/-- C3 counterexample: with backend-reported mode height 65536 and mapped
pitch 65536, the u32 length arithmetic of `get_frame` wraps: the returned
memory frame has byte length 0, not H * P = 2^32. -/
theorem memory_frame_len_not_height_times_pitch :
    (get_frame overflowCapturer 0 overflowResp).2.2
        = Except.ok (DxgiFrameData.Memory 0)
    ∧ DxgiFrame_as_bytes (DxgiFrameData.Memory 0) sampleReadback
        = ([], Except.ok (Bytes.borrowed 0))
    ∧ (0 : Nat) ≠ 65536 * 65536 := by
  refine ⟨by decide, rfl, by decide⟩

/-- C3 amended: for a successfully acquired system-memory frame with
non-negative reported pitch P (an i32) and H * P below 2^32, `get_frame`
returns a `Memory` frame of byte length exactly H * P, and `as_bytes` on it
is the borrowed slice of that same length; in general the length is
`(H * (P as u32)) mod 2^32` (u32 arithmetic). -/
theorem memory_frame_len (c : Capturer) (t : Nat) (resp : AcquireResponse)
    (res : Option GpuResource) (rect : DXGI_MAPPED_RECT) (r : ReadbackResp)
    (hmem : c.desc.desktopImageInSystemMemory = true)
    (hacq : resp.acquire = AcquireResult.success res)
    (hmap : resp.mapResult = Except.ok rect)
    (hp0 : 0 ≤ rect.pitch) (hp1 : rect.pitch < 2 ^ 31)
    (hlen : c.desc.modeHeight * rect.pitch.toNat < 2 ^ 32) :
    (get_frame c t resp).2.2
        = Except.ok (DxgiFrameData.Memory (c.desc.modeHeight * rect.pitch.toNat))
    ∧ DxgiFrame_as_bytes
        (DxgiFrameData.Memory (c.desc.modeHeight * rect.pitch.toNat)) r
        = ([], Except.ok (Bytes.borrowed (c.desc.modeHeight * rect.pitch.toNat))) := by
  have hu : u32ofInt rect.pitch = rect.pitch.toNat := by
    unfold u32ofInt
    rw [Int.emod_eq_of_lt hp0 (by omega)]
  constructor
  · cases hcf : c.has_frame <;>
      simp [get_frame, hcf, hacq, hmap, hmem, hu, Nat.mod_eq_of_lt hlen] <;>
      omega
  · simp [DxgiFrame_as_bytes]

/-- C3 witness: height 4, pitch 100 gives a 400-byte memory frame. -/
theorem memory_frame_len_witness :
    (get_frame sampleCapturer 0 ⟨AcquireResult.success none, Except.ok ⟨100⟩⟩).2.2
        = Except.ok (DxgiFrameData.Memory (4 * 100))
    ∧ DxgiFrame_as_bytes (DxgiFrameData.Memory (4 * 100)) sampleReadback
        = ([], Except.ok (Bytes.borrowed (4 * 100))) :=
  memory_frame_len sampleCapturer 0 ⟨AcquireResult.success none, Except.ok ⟨100⟩⟩
    none ⟨100⟩ sampleReadback rfl rfl rfl (by decide) (by decide) (by decide)

/-- C5 counterexample: a fully successful GPU readback issues no `Unmap`
call at all — the claim's "the staging resource is then unmapped" step does
not exist in the code (the staging surface is released without unmapping). -/
theorem gpu_readback_no_unmap :
    (get_bytes sampleReadback).2 = Except.ok 4096
    ∧ countEv Dx11Ev.unmap (get_bytes sampleReadback).1 = 0 := by
  refine ⟨by decide, by decide⟩

/-- C5 amended: each `get_bytes` call on a GPU-resident frame performs the
readback anew with no caching: per call, exactly one staging-texture
creation (staging usage, CPU-read access, no bind or misc flags, maximum
eviction priority) followed by exactly one resource copy, then a map for
read and a copy of exactly `height * mappedPitch` bytes (for non-negative
pitch) into a freshly allocated owned buffer; no unmap call is issued, and
no readback work happens before `as_bytes` triggers `get_bytes`. -/
theorem gpu_readback_per_call (r : ReadbackResp) (rect : DXGI_MAPPED_RECT)
    (hc : r.createResult = Except.ok (some ()))
    (hcast : r.castResult = Except.ok ())
    (hm : r.mapResult = Except.ok rect)
    (hp0 : 0 ≤ rect.pitch) (hp1 : rect.pitch < 2 ^ 31)
    (hh : r.srcDesc.height < 2 ^ 32) :
    get_bytes r =
      ([Dx11Ev.getDesc, Dx11Ev.getDesc,
        Dx11Ev.createTexture
          { r.srcDesc with
              usage := D3D11_USAGE_STAGING
              bindFlags := 0
              miscFlags := 0
              cpuAccessFlags := D3D11_CPU_ACCESS_READ },
        Dx11Ev.setEvictionPriority DXGI_RESOURCE_PRIORITY_MAXIMUM,
        Dx11Ev.copyResource, Dx11Ev.map DXGI_MAP_READ,
        Dx11Ev.readBytes (r.srcDesc.height * rect.pitch.toNat)],
       Except.ok (r.srcDesc.height * rect.pitch.toNat))
    ∧ DxgiFrame_as_bytes (DxgiFrameData.DirectX ()) r
        = ((get_bytes r).1,
           Except.ok (Bytes.owned (r.srcDesc.height * rect.pitch.toNat))) := by
  have hu : usizeOfInt rect.pitch = rect.pitch.toNat := by
    unfold usizeOfInt
    rw [Int.emod_eq_of_lt hp0 (by omega)]
  have hbound : r.srcDesc.height * rect.pitch.toNat < 2 ^ 64 := by
    have hp : rect.pitch.toNat < 2 ^ 31 := by omega
    calc r.srcDesc.height * rect.pitch.toNat
        < 2 ^ 32 * 2 ^ 31 := by
          exact Nat.mul_lt_mul_of_lt_of_le hh (Nat.le_of_lt hp) (by norm_num)
      _ ≤ 2 ^ 64 := by norm_num
  have hget : get_bytes r =
      ([Dx11Ev.getDesc, Dx11Ev.getDesc,
        Dx11Ev.createTexture
          { r.srcDesc with
              usage := D3D11_USAGE_STAGING
              bindFlags := 0
              miscFlags := 0
              cpuAccessFlags := D3D11_CPU_ACCESS_READ },
        Dx11Ev.setEvictionPriority DXGI_RESOURCE_PRIORITY_MAXIMUM,
        Dx11Ev.copyResource, Dx11Ev.map DXGI_MAP_READ,
        Dx11Ev.readBytes (r.srcDesc.height * rect.pitch.toNat)],
       Except.ok (r.srcDesc.height * rect.pitch.toNat)) := by
    simp [get_bytes, get_surface, hc, hcast, hm, hu, Nat.mod_eq_of_lt hbound]
    omega
  refine ⟨hget, ?_⟩
  simp [DxgiFrame_as_bytes, hget, Except.map]

/-- C5 witness: the sample readback (height 4, pitch 1024) produces exactly
the expected call sequence and a 4096-byte owned buffer. -/
theorem gpu_readback_per_call_witness :
    get_bytes sampleReadback =
      ([Dx11Ev.getDesc, Dx11Ev.getDesc,
        Dx11Ev.createTexture ⟨8, 4, 3, 0, 0, 0x20000⟩,
        Dx11Ev.setEvictionPriority 0xc8000000,
        Dx11Ev.copyResource, Dx11Ev.map 1, Dx11Ev.readBytes (4 * 1024)],
       Except.ok (4 * 1024)) :=
  (gpu_readback_per_call sampleReadback ⟨1024⟩ rfl rfl rfl
    (by decide) (by decide) (by decide)).1

/-- C9 counterexample: when the initial dirty-rect query succeeds reporting
20 entries but the re-query after growth fails, `get_dirty_rects` returns
the 20 entries determined by the first query's report, not an empty
sequence, even though the backend reported an error. -/
theorem rect_query_error_nonempty :
    (get_dirty_rects
        (RectQueryResp.success (List.replicate 20 ⟨0, 0, 0, 0⟩))
        (RectQueryResp.failure 5)).2.2.length = 20
    ∧ (get_dirty_rects
        (RectQueryResp.success (List.replicate 20 ⟨0, 0, 0, 0⟩))
        (RectQueryResp.failure 5)).2.2 ≠ [] := by
  refine ⟨by decide, by decide⟩

/-- C9 amended: the dirty/moved queries have no error channel (they always
return a plain sequence); when the initial backend query reports an error
they issue no re-query and return an empty sequence; only when the initial
query succeeds and the re-query after growth fails can a non-empty result
be returned despite a backend error. -/
theorem rect_queries_error_empty (code : Int) (r2 : RectQueryResp RECT)
    (r2m : RectQueryResp DXGI_OUTDUPL_MOVE_RECT) :
    get_dirty_rects (RectQueryResp.failure code) r2 = (1, 16, [])
    ∧ get_moved_rects (RectQueryResp.failure code) r2m = (1, 16, []) :=
  ⟨rfl, rfl⟩

/-- C10 counterexample: a backend descriptor with `right < left` is yielded
as a display by the enumeration step (no error, no validation), and its
`width()` is the wrapped unsigned value `2^64 - 10`, not a failure. -/
theorem invalid_descriptor_yielded :
    (next_display [[badRECT]] initEnumState).1 = some ⟨badRECT, 0, 0, none⟩
    ∧ badRECT.right < badRECT.left
    ∧ display_width badRECT = 2 ^ 64 - 10 := by
  refine ⟨?_, by decide, by decide⟩
  rw [next_display]
  simp [initEnumState, EnumAdapters1, EnumOutputs]

/-- C10 amended: `width()`/`height()` are the unsigned casts of the i32
coordinate differences — they equal `right - left` / `bottom - top` whenever
those are non-negative (and in i32 range), and wrap modulo 2^64 otherwise,
so the returned `usize` is always non-negative; enumeration performs no
descriptor validation: any descriptor, valid or not, is yielded as a
display. -/
theorem display_geometry (d : RECT) :
    (d.left ≤ d.right → d.right - d.left < 2 ^ 31 →
        (display_width d : Int) = d.right - d.left)
    ∧ (d.top ≤ d.bottom → d.bottom - d.top < 2 ^ 31 →
        (display_height d : Int) = d.bottom - d.top)
    ∧ ∀ r : RECT, (next_display [[r]] initEnumState).1 = some ⟨r, 0, 0, none⟩ := by
  refine ⟨?_, ?_, ?_⟩
  · intro h1 h2
    unfold display_width usizeOfInt toI32
    omega
  · intro h1 h2
    unfold display_height usizeOfInt toI32
    omega
  · intro r
    rw [next_display]
    simp [initEnumState, EnumAdapters1, EnumOutputs]

/-- C10 witness: a 100x50 descriptor has width 100 and height 50. -/
theorem display_geometry_witness :
    (display_width ⟨0, 0, 100, 50⟩ : Int) = 100 - 0
    ∧ (display_height ⟨0, 0, 100, 50⟩ : Int) = 50 - 0 :=
  ⟨(display_geometry ⟨0, 0, 100, 50⟩).1 (by decide) (by decide),
   (display_geometry ⟨0, 0, 100, 50⟩).2.1 (by decide) (by decide)⟩

/-- Splitting the call-order check across a concatenation of event logs. -/
theorem chkFrom_append (a b : List BackendEv) (n : Nat) :
    chkFrom n (a ++ b) = (chkFrom n a && chkFrom (outsAfter n a) b) := by
  induction a generalizing n with
  | nil => simp [chkFrom, outsAfter]
  | cons e t ih =>
      simp [chkFrom, outsAfter, ih, Bool.and_assoc]

/-- One `get_frame` call preserves the acquire/release protocol: starting
from the outstanding count matching `has_frame`, every acquire in its log is
issued with zero frames outstanding, and the outstanding count afterwards
matches the new `has_frame`. -/
theorem get_frame_chk (c : Capturer) (t : Nat) (r : AcquireResponse) :
    chkFrom (frameFlag c) (get_frame c t r).1 = true
    ∧ outsAfter (frameFlag c) (get_frame c t r).1
        = frameFlag (get_frame c t r).2.1 := by
  obtain ⟨acq, mapr⟩ := r
  rcases acq with _ | code | resource <;>
    rcases mapr with mcode | mrect <;>
    cases hcf : c.has_frame <;>
    cases hmem : c.desc.desktopImageInSystemMemory <;>
    (try rcases resource with _ | ⟨cres⟩) <;>
    (try rcases cres with ccode | u) <;>
    simp [get_frame, hcf, hmem, chkFrom, outsStep, outsAfter, frameFlag]

/-- A whole run of `get_frame` calls preserves the protocol check and the
outstanding-count/`has_frame` correspondence. -/
theorem run_chk (inputs : List (Nat × AcquireResponse)) :
    ∀ c : Capturer,
      chkFrom (frameFlag c) (run c inputs).1 = true
      ∧ outsAfter (frameFlag c) (run c inputs).1 = frameFlag (run c inputs).2.2 := by
  induction inputs with
  | nil => intro c; simp [run, chkFrom, outsAfter]
  | cons p rest ih =>
      intro c
      obtain ⟨t, r⟩ := p
      have h1 := get_frame_chk c t r
      have h2 := ih (get_frame c t r).2.1
      constructor
      · simp only [run, chkFrom_append, h1.1, Bool.true_and]
        rw [h1.2]
        exact h2.1
      · simp only [run, outsAfter, List.foldl_append]
        rw [show (get_frame c t r).1.foldl outsStep (frameFlag c)
              = frameFlag (get_frame c t r).2.1 from h1.2]
        exact h2.2

/-- If the protocol check passes from an outstanding count of at most one,
the outstanding count stays at most one after every prefix. -/
theorem chkFrom_take_le (l : List BackendEv) :
    ∀ n m, chkFrom n l = true → n ≤ 1 → outsAfter n (l.take m) ≤ 1 := by
  induction l with
  | nil =>
      intro n m _ h1
      simpa [outsAfter] using h1
  | cons e t ih =>
      intro n m hchk h1
      cases m with
      | zero => simpa [outsAfter] using h1
      | succ m1 =>
          rw [List.take_succ_cons]
          rcases e with _ | _ | ⟨tm, ok⟩ | _
          · simp only [chkFrom, Bool.true_and] at hchk
            simpa [outsAfter, outsStep] using ih n m1 hchk h1
          · simp only [chkFrom, Bool.true_and] at hchk
            exact ih (n - 1) m1 (by simpa [outsStep] using hchk) (by omega)
          · simp only [chkFrom, Bool.and_eq_true, beq_iff_eq] at hchk
            have hn : n = 0 := hchk.1
            subst hn
            cases ok
            · simpa [outsAfter, outsStep] using
                ih 0 m1 (by simpa [outsStep] using hchk.2) (by omega)
            · simpa [outsAfter, outsStep] using
                ih 1 m1 (by simpa [outsStep] using hchk.2) (by omega)
          · simp only [chkFrom, Bool.true_and] at hchk
            simpa [outsAfter, outsStep] using ih n m1 hchk h1

/-- C1: starting from a freshly constructed capturer (`has_frame = false`),
over any sequence of `get_frame` calls every `AcquireNextFrame` call is
issued with zero unreleased frames outstanding (so no two acquires happen
without an intervening release after a successful acquire), at most one
unreleased native frame exists after every prefix of the backend call trace,
and whenever the prior call left the capturer holding a frame, the next
`get_frame` emits the release (preceded by the surface unmap when the
desktop image is system-memory resident) before its acquire call. -/
theorem get_frame_acquire_release_protocol (c : Capturer)
    (inputs : List (Nat × AcquireResponse)) (h : c.has_frame = false) :
    chkFrom 0 (run c inputs).1 = true
    ∧ (∀ m, outsAfter 0 ((run c inputs).1.take m) ≤ 1)
    ∧ (∀ c1 t r, c1.has_frame = true →
        ∃ b rest, (get_frame c1 t r).1
          = (if c1.desc.desktopImageInSystemMemory
              then [BackendEv.unmapSurface] else [])
            ++ BackendEv.releaseFrame :: BackendEv.acquire t b :: rest) := by
  have h0 := run_chk inputs c
  rw [frameFlag, h, if_neg (by simp)] at h0
  refine ⟨h0.1, fun m => chkFrom_take_le _ 0 m h0.1 (by omega), ?_⟩
  intro c1 t r hold
  obtain ⟨acq, mapr⟩ := r
  rcases acq with _ | code | resource
  · exact ⟨false, [], by simp [get_frame, hold]⟩
  · exact ⟨false, [], by simp [get_frame, hold]⟩
  · cases hmem : c1.desc.desktopImageInSystemMemory
    · rcases resource with _ | ⟨cres⟩
      · exact ⟨true, [], by simp [get_frame, hold, hmem]⟩
      · rcases cres with ccode | u
        · exact ⟨true, [], by simp [get_frame, hold, hmem]⟩
        · exact ⟨true, [], by simp [get_frame, hold, hmem]⟩
    · rcases mapr with mcode | mrect
      · exact ⟨true, [BackendEv.mapSurface], by simp [get_frame, hold, hmem]⟩
      · exact ⟨true, [BackendEv.mapSurface], by simp [get_frame, hold, hmem]⟩

/-- C1 witness: a fresh sample capturer over a successful acquire, a
timeout, and another successful acquire. -/
theorem get_frame_acquire_release_protocol_witness :
    chkFrom 0
      (run sampleCapturer
        [(0, ⟨AcquireResult.success none, Except.ok ⟨7⟩⟩),
         (0, ⟨AcquireResult.timeout, Except.ok ⟨7⟩⟩),
         (5, ⟨AcquireResult.success none, Except.ok ⟨7⟩⟩)]).1 = true :=
  (get_frame_acquire_release_protocol sampleCapturer
    [(0, ⟨AcquireResult.success none, Except.ok ⟨7⟩⟩),
     (0, ⟨AcquireResult.timeout, Except.ok ⟨7⟩⟩),
     (5, ⟨AcquireResult.success none, Except.ok ⟨7⟩⟩)] rfl).1

/-- Adaptive-growth behaviour of the extractor core against a mock backend
consistently reporting the entry list `rs`: at most 16 entries means one
query, no growth, all entries returned; more than 16 means one growth to
`min (reported) 7000` total capacity, one re-query, and
`min (reported) 7000` returned entries; the capacity never exceeds 7000. -/
theorem getRectsCore_success {α β : Type} (dflt : α) (conv : α → β) (rs : List α) :
    (rs.length ≤ 16 →
       (getRectsCore dflt conv (RectQueryResp.success rs) (RectQueryResp.success rs)).1 = 1
       ∧ (getRectsCore dflt conv (RectQueryResp.success rs) (RectQueryResp.success rs)).2.1 = 16
       ∧ (getRectsCore dflt conv (RectQueryResp.success rs)
            (RectQueryResp.success rs)).2.2.length = rs.length)
    ∧ (16 < rs.length →
       (getRectsCore dflt conv (RectQueryResp.success rs) (RectQueryResp.success rs)).1 = 2
       ∧ (getRectsCore dflt conv (RectQueryResp.success rs) (RectQueryResp.success rs)).2.1
           = min rs.length 7000
       ∧ (getRectsCore dflt conv (RectQueryResp.success rs)
            (RectQueryResp.success rs)).2.2.length = min rs.length 7000)
    ∧ (getRectsCore dflt conv (RectQueryResp.success rs) (RectQueryResp.success rs)).2.1
        ≤ 7000 := by
  unfold getRectsCore queryRects
  simp only [RECT_BUF_LEN, RECT_BUF_MAX_LEN, List.length_replicate, List.length_append,
    List.length_take, List.length_drop]
  by_cases hle : rs.length ≤ 16
  · rw [if_neg (by omega)]
    simp only [List.length_map, List.length_take, List.length_append, List.length_drop,
      List.length_replicate]
    exact ⟨fun h => ⟨by trivial, by omega, by omega⟩, fun h => absurd h (by omega), by omega⟩
  · rw [if_pos (by omega)]
    simp only [List.length_map, List.length_take, List.length_append, List.length_drop,
      List.length_replicate]
    exact ⟨fun h => absurd h (by omega), fun h => ⟨by trivial, by omega, by omega⟩, by omega⟩

/-- C4: for both the dirty- and moved-rect queries against a mock backend
reporting `rs.length` entries, a report of at most 16 entries is answered
with one query, no growth, and all entries; a report exceeding the 16-entry
default buffer grows the buffer exactly once to `min reported 7000` total
entries, re-queries exactly once, and returns exactly `min reported 7000`
entries; the buffer capacity never exceeds the 7000-entry hard cap. -/
theorem rect_buffer_growth (rs : List RECT) (ms : List DXGI_OUTDUPL_MOVE_RECT) :
    ((rs.length ≤ 16 →
       (get_dirty_rects (RectQueryResp.success rs) (RectQueryResp.success rs)).1 = 1
       ∧ (get_dirty_rects (RectQueryResp.success rs) (RectQueryResp.success rs)).2.1 = 16
       ∧ (get_dirty_rects (RectQueryResp.success rs)
            (RectQueryResp.success rs)).2.2.length = rs.length)
    ∧ (16 < rs.length →
       (get_dirty_rects (RectQueryResp.success rs) (RectQueryResp.success rs)).1 = 2
       ∧ (get_dirty_rects (RectQueryResp.success rs) (RectQueryResp.success rs)).2.1
           = min rs.length 7000
       ∧ (get_dirty_rects (RectQueryResp.success rs)
            (RectQueryResp.success rs)).2.2.length = min rs.length 7000)
    ∧ (get_dirty_rects (RectQueryResp.success rs) (RectQueryResp.success rs)).2.1 ≤ 7000)
    ∧ ((ms.length ≤ 16 →
       (get_moved_rects (RectQueryResp.success ms) (RectQueryResp.success ms)).1 = 1
       ∧ (get_moved_rects (RectQueryResp.success ms) (RectQueryResp.success ms)).2.1 = 16
       ∧ (get_moved_rects (RectQueryResp.success ms)
            (RectQueryResp.success ms)).2.2.length = ms.length)
    ∧ (16 < ms.length →
       (get_moved_rects (RectQueryResp.success ms) (RectQueryResp.success ms)).1 = 2
       ∧ (get_moved_rects (RectQueryResp.success ms) (RectQueryResp.success ms)).2.1
           = min ms.length 7000
       ∧ (get_moved_rects (RectQueryResp.success ms)
            (RectQueryResp.success ms)).2.2.length = min ms.length 7000)
    ∧ (get_moved_rects (RectQueryResp.success ms) (RectQueryResp.success ms)).2.1 ≤ 7000) :=
  ⟨getRectsCore_success _ _ rs, getRectsCore_success _ _ ms⟩

/-- C4 witness: a backend reporting 9000 dirty rectangles gets one growth to
7000 total entries, one re-query and exactly `min 9000 7000` entries; a
backend reporting 10 moved rectangles gets all 10 with no growth. -/
theorem rect_buffer_growth_witness :
    ((get_dirty_rects
        (RectQueryResp.success (List.replicate 9000 (⟨0, 0, 0, 0⟩ : RECT)))
        (RectQueryResp.success (List.replicate 9000 (⟨0, 0, 0, 0⟩ : RECT)))).1 = 2
      ∧ (get_dirty_rects
        (RectQueryResp.success (List.replicate 9000 (⟨0, 0, 0, 0⟩ : RECT)))
        (RectQueryResp.success (List.replicate 9000 (⟨0, 0, 0, 0⟩ : RECT)))).2.1
          = min (List.replicate 9000 (⟨0, 0, 0, 0⟩ : RECT)).length 7000
      ∧ (get_dirty_rects
        (RectQueryResp.success (List.replicate 9000 (⟨0, 0, 0, 0⟩ : RECT)))
        (RectQueryResp.success (List.replicate 9000 (⟨0, 0, 0, 0⟩ : RECT)))).2.2.length
          = min (List.replicate 9000 (⟨0, 0, 0, 0⟩ : RECT)).length 7000)
    ∧ ((get_moved_rects
        (RectQueryResp.success (List.replicate 10 (⟨⟨0, 0⟩, ⟨0, 0, 0, 0⟩⟩ : DXGI_OUTDUPL_MOVE_RECT)))
        (RectQueryResp.success (List.replicate 10 (⟨⟨0, 0⟩, ⟨0, 0, 0, 0⟩⟩ : DXGI_OUTDUPL_MOVE_RECT)))).1 = 1
      ∧ (get_moved_rects
        (RectQueryResp.success (List.replicate 10 (⟨⟨0, 0⟩, ⟨0, 0, 0, 0⟩⟩ : DXGI_OUTDUPL_MOVE_RECT)))
        (RectQueryResp.success (List.replicate 10 (⟨⟨0, 0⟩, ⟨0, 0, 0, 0⟩⟩ : DXGI_OUTDUPL_MOVE_RECT)))).2.1 = 16
      ∧ (get_moved_rects
        (RectQueryResp.success (List.replicate 10 (⟨⟨0, 0⟩, ⟨0, 0, 0, 0⟩⟩ : DXGI_OUTDUPL_MOVE_RECT)))
        (RectQueryResp.success (List.replicate 10 (⟨⟨0, 0⟩, ⟨0, 0, 0, 0⟩⟩ : DXGI_OUTDUPL_MOVE_RECT)))).2.2.length
          = (List.replicate 10 (⟨⟨0, 0⟩, ⟨0, 0, 0, 0⟩⟩ : DXGI_OUTDUPL_MOVE_RECT)).length) :=
  ⟨(rect_buffer_growth (List.replicate 9000 ⟨0, 0, 0, 0⟩)
      (List.replicate 10 ⟨⟨0, 0⟩, ⟨0, 0, 0, 0⟩⟩)).1.2.1
        (by rw [List.length_replicate]; omega),
   (rect_buffer_growth (List.replicate 9000 ⟨0, 0, 0, 0⟩)
      (List.replicate 10 ⟨⟨0, 0⟩, ⟨0, 0, 0, 0⟩⟩)).2.1
        (by rw [List.length_replicate]; omega)⟩

/-- Unfolding `next_display` at a state with no loaded adapter and an
exhausted adapter ordinal: enumeration ends, state unchanged, depth 1. -/
theorem next_display_none_stop (T : Topo) (ai di : Nat) (h : ¬ ai < T.length) :
    next_display T ⟨none, ai, di⟩ = (none, ⟨none, ai, di⟩, 1) := by
  rw [next_display]
  split
  · rfl
  · rename_i s1 hl1
    simp only [EnumAdapters1] at hl1
    rw [if_neg h] at hl1
    exact absurd hl1 (by simp)

/-- Unfolding `next_display` at a state with no loaded adapter but an
existing adapter ordinal: it behaves exactly as with that adapter loaded. -/
theorem next_display_none_load (T : Topo) (ai di : Nat) (h : ai < T.length) :
    next_display T ⟨none, ai, di⟩ = next_display T ⟨some ai, ai, di⟩ := by
  conv_lhs => rw [next_display]
  split
  · rename_i hl1
    simp only [EnumAdapters1] at hl1
    rw [if_pos h] at hl1
    exact absurd hl1 (by simp)
  · rename_i s1 hl1
    simp only [EnumAdapters1] at hl1
    rw [if_pos h] at hl1
    injection hl1 with h2
    subst h2
    conv_rhs => rw [next_display]

/-- Unfolding `next_display` at a loaded-adapter state whose current output
ordinal exists: the display is yielded and the output ordinal advances. -/
theorem next_display_loaded_yield (T : Topo) (a ai di : Nat) (d : RECT)
    (hd : (T.getD a [])[di]? = some d) :
    next_display T ⟨some a, ai, di⟩
      = (some ⟨d, di, a, none⟩, ⟨some a, ai, di + 1⟩, 1) := by
  rw [next_display]
  simp only [List.getD_eq_getElem?_getD] at hd
  simp [EnumOutputs, hd]

/-- Unfolding `next_display` at a loaded-adapter state whose current output
ordinal reports NOT_FOUND: the enumerator advances to the next adapter
ordinal, resets the output ordinal, and recurses. -/
theorem next_display_loaded_advance (T : Topo) (a ai di : Nat)
    (hd : (T.getD a [])[di]? = none) :
    next_display T ⟨some a, ai, di⟩
      = ((next_display T ⟨none, ai + 1, 0⟩).1,
         (next_display T ⟨none, ai + 1, 0⟩).2.1,
         (next_display T ⟨none, ai + 1, 0⟩).2.2 + 1) := by
  rw [next_display]
  simp only [List.getD_eq_getElem?_getD] at hd
  simp [EnumOutputs, hd]

/-- Exhausted remainder: no adapters at or after ordinal `a`. -/
theorem expectedTail_stop (T : Topo) (a : Nat) (h : T.length ≤ a) :
    expectedTail T a = [] := by
  unfold expectedTail
  rw [Nat.sub_eq_zero_of_le h]
  rfl

/-- Peeling one adapter off the remainder. -/
theorem expectedTail_cons (T : Topo) (a : Nat) (h : a < T.length) :
    expectedTail T a = adapterOutputs T a ++ expectedTail T (a + 1) := by
  unfold expectedTail
  rw [show T.length - a = (T.length - (a + 1)) + 1 by omega, List.range'_succ]
  rw [List.flatMap_cons]

/-- An adapter contributes as many displays as it has outputs. -/
theorem adapterOutputs_length (T : Topo) (a : Nat) :
    (adapterOutputs T a).length = (T.getD a []).length := by
  simp [adapterOutputs]

/-- Peeling the display at output ordinal `o` off an adapter's displays. -/
theorem adapterOutputs_drop (T : Topo) (a o : Nat)
    (h : o < (T.getD a []).length) :
    (adapterOutputs T a).drop o
      = ⟨(T.getD a []).getD o ⟨0, 0, 0, 0⟩, o, a, none⟩
          :: (adapterOutputs T a).drop (o + 1) := by
  have h2 : o < (adapterOutputs T a).length := by rw [adapterOutputs_length]; exact h
  rw [List.drop_eq_getElem_cons h2]
  congr 1
  simp [adapterOutputs]

/-- `next_display` simulates the reference enumeration: from any state
satisfying the invariant, it yields the head of the remaining display list
(or `none` when exhausted), and moves to a state whose remainder is the
tail.  `fuel` bounds the adapters left to scan. -/
theorem next_display_step (T : Topo) :
    ∀ (fuel : Nat) (s : EnumState), T.length - s.adapter_idx ≤ fuel → enumInv T s →
      (next_display T s).1 = (remDisplays T s).head?
      ∧ enumInv T (next_display T s).2.1
      ∧ remDisplays T (next_display T s).2.1 = (remDisplays T s).tail := by
  intro fuel
  induction fuel with
  | zero =>
      intro s hf hinv
      obtain ⟨sad, ai, di⟩ := s
      cases sad with
      | none =>
          simp only [enumInv] at hinv
          subst hinv
          replace hf : T.length - ai ≤ 0 := hf
          have hA : ¬ ai < T.length := by omega
          rw [next_display_none_stop T ai 0 hA]
          have hrem : remDisplays T ⟨none, ai, 0⟩ = [] := by
            show expectedTail T ai = []
            exact expectedTail_stop T ai (by omega)
          rw [hrem]
          exact ⟨rfl, rfl, rfl⟩
      | some a =>
          simp only [enumInv] at hinv
          obtain ⟨h1, h2, h3⟩ := hinv
          subst h1
          replace hf : T.length - a ≤ 0 := hf
          exact absurd h2 (by omega)
  | succ n ih =>
      intro s hf hinv
      have loaded : ∀ a o, a < T.length → o ≤ (T.getD a []).length →
          T.length - (a + 1) ≤ n →
          (next_display T ⟨some a, a, o⟩).1 = (remDisplays T ⟨some a, a, o⟩).head?
          ∧ enumInv T (next_display T ⟨some a, a, o⟩).2.1
          ∧ remDisplays T (next_display T ⟨some a, a, o⟩).2.1
              = (remDisplays T ⟨some a, a, o⟩).tail := by
        intro a o haL hole hfn
        by_cases ho : o < (T.getD a []).length
        · obtain ⟨d, hd⟩ : ∃ d, (T.getD a [])[o]? = some d := by
            rcases hx : (T.getD a [])[o]? with _ | d
            · rw [List.getElem?_eq_none_iff] at hx
              omega
            · exact ⟨d, rfl⟩
          have hgd : (T.getD a []).getD o ⟨0, 0, 0, 0⟩ = d := by
            rw [List.getD_eq_getElem?_getD, hd]
            rfl
          rw [next_display_loaded_yield T a a o d hd]
          have hrem : remDisplays T ⟨some a, a, o⟩
              = ⟨d, o, a, none⟩
                  :: ((adapterOutputs T a).drop (o + 1) ++ expectedTail T (a + 1)) := by
            show (adapterOutputs T a).drop o ++ expectedTail T (a + 1) = _
            rw [adapterOutputs_drop T a o ho, hgd]
            rfl
          rw [hrem]
          refine ⟨rfl, ⟨rfl, haL, ho⟩, rfl⟩
        · have hd : (T.getD a [])[o]? = none := by
            rw [List.getElem?_eq_none_iff]
            omega
          rw [next_display_loaded_advance T a a o hd]
          have hrem : remDisplays T ⟨some a, a, o⟩ = expectedTail T (a + 1) := by
            show (adapterOutputs T a).drop o ++ expectedTail T (a + 1) = _
            rw [List.drop_eq_nil_of_le (by rw [adapterOutputs_length]; omega)]
            rfl
          have hih := ih ⟨none, a + 1, 0⟩ (by simpa using hfn) rfl
          rw [hrem]
          exact ⟨hih.1, hih.2.1, hih.2.2⟩
      obtain ⟨sad, ai, di⟩ := s
      cases sad with
      | none =>
          simp only [enumInv] at hinv
          subst hinv
          replace hf : T.length - ai ≤ n + 1 := hf
          by_cases hA : ai < T.length
          · rw [next_display_none_load T ai 0 hA]
            have hremeq : remDisplays T ⟨none, ai, 0⟩
                = remDisplays T ⟨some ai, ai, 0⟩ := by
              show expectedTail T ai = (adapterOutputs T ai).drop 0 ++ expectedTail T (ai + 1)
              rw [List.drop_zero]
              exact expectedTail_cons T ai hA
            rw [hremeq]
            exact loaded ai 0 hA (by omega) (by omega)
          · rw [next_display_none_stop T ai 0 hA]
            have hrem : remDisplays T ⟨none, ai, 0⟩ = [] := by
              show expectedTail T ai = []
              exact expectedTail_stop T ai (by omega)
            rw [hrem]
            exact ⟨rfl, rfl, rfl⟩
      | some a =>
          simp only [enumInv] at hinv
          obtain ⟨ha1, ha2, ha3⟩ := hinv
          subst ha1
          replace hf : T.length - a ≤ n + 1 := hf
          exact loaded a di ha2 ha3 (by omega)

/-- Running `k` `next` calls from any invariant state yields the remaining
displays in order, followed by `none` forever. -/
theorem runNext_spec (T : Topo) :
    ∀ (k : Nat) (s : EnumState), enumInv T s →
      (runNext T s k).1
        = ((remDisplays T s).map some
            ++ List.replicate (k - (remDisplays T s).length) none).take k := by
  intro k
  induction k with
  | zero => intro s _; simp [runNext]
  | succ m ih =>
      intro s hinv
      have hs := next_display_step T (T.length - s.adapter_idx) s (le_refl _) hinv
      simp only [runNext]
      rw [hs.1, ih _ hs.2.1, hs.2.2]
      cases hrem : remDisplays T s with
      | nil => simp [List.take_replicate, List.replicate_succ]
      | cons d ds => simp [List.take_succ_cons, Nat.succ_sub_succ]

/-- The reference remainder of a uniform `N`-adapter, `M`-output topology is
the full adapter-major, output-minor display list, of length `N * M`. -/
theorem uniform_expected_eq (N M : Nat) (f : Nat → Nat → RECT) :
    expectedTail (uniformTopo N M f) 0 = uniformExpected N M f
    ∧ (uniformExpected N M f).length = N * M := by
  have hA : ∀ a, a < N → adapterOutputs (uniformTopo N M f) a
      = (List.range M).map (fun o => (⟨f a o, o, a, none⟩ : DxgiDisplay)) := by
    intro a ha
    have hgetD : (uniformTopo N M f).getD a [] = (List.range M).map (f a) := by
      rw [List.getD_eq_getElem?_getD]
      unfold uniformTopo
      rw [List.getElem?_map, List.getElem?_range ha]
      rfl
    unfold adapterOutputs
    rw [hgetD]
    simp only [List.length_map, List.length_range]
    apply List.map_congr_left
    intro o hoin
    have ho : o < M := List.mem_range.mp hoin
    have : ((List.range M).map (f a)).getD o ⟨0, 0, 0, 0⟩ = f a o := by
      rw [List.getD_eq_getElem?_getD, List.getElem?_map, List.getElem?_range ho]
      rfl
    rw [this]
  constructor
  · unfold expectedTail uniformExpected
    have hlen : (uniformTopo N M f).length = N := by
      unfold uniformTopo
      simp
    rw [hlen, Nat.sub_zero, ← List.range_eq_range']
    have hcong : ∀ (l : List Nat), (∀ a ∈ l, a < N) →
        l.flatMap (adapterOutputs (uniformTopo N M f))
          = l.flatMap (fun a => (List.range M).map
              (fun o => (⟨f a o, o, a, none⟩ : DxgiDisplay))) := by
      intro l
      induction l with
      | nil => intro _; rfl
      | cons x xs ihx =>
          intro h
          rw [List.flatMap_cons, List.flatMap_cons, hA x (h x (by simp)),
            ihx (fun a ha => h a (by simp [ha]))]
    exact hcong (List.range N) (fun a ha => List.mem_range.mp ha)
  · unfold uniformExpected
    rw [List.length_flatMap]
    have : (List.map (List.length ∘ fun a => (List.range M).map
        (fun o => (⟨f a o, o, a, none⟩ : DxgiDisplay))) (List.range N))
          = List.replicate N M := by
      rw [show (List.length ∘ fun a => (List.range M).map
          (fun o => (⟨f a o, o, a, none⟩ : DxgiDisplay)))
            = fun _ => M by funext a; simp]
      rw [List.map_const', List.length_range]
    rw [this, List.sum_replicate, smul_eq_mul]

/-- C6: over a uniform topology of `N` adapters with `M` outputs each, `k`
successive `next()` calls yield exactly the `N*M` displays in adapter-major,
output-minor order (as far as `k` reaches) and `none` on every later call;
the expected display list has length exactly `N*M`; and with zero adapters
every call yields `none` (empty sequence, no error — the mock backend's
NOT_FOUND on the first adapter ordinal ends enumeration normally).
Output-ordinal NOT_FOUND advancing to the next adapter rather than
terminating is part of the simulation (`next_display_step`). -/
theorem enumerator_yields_topology (N M : Nat) (f : Nat → Nat → RECT) (k : Nat) :
    (runNext (uniformTopo N M f) initEnumState k).1
      = ((uniformExpected N M f).map some
          ++ List.replicate (k - N * M) none).take k
    ∧ (uniformExpected N M f).length = N * M
    ∧ (runNext ([] : Topo) initEnumState k).1 = List.replicate k none := by
  have hu := uniform_expected_eq N M f
  refine ⟨?_, hu.2, ?_⟩
  · have h0 := runNext_spec (uniformTopo N M f) k initEnumState rfl
    have hrem : remDisplays (uniformTopo N M f) initEnumState
        = uniformExpected N M f := hu.1
    rw [h0, hrem, hu.2]
  · have h0 := runNext_spec ([] : Topo) k initEnumState rfl
    have hrem : remDisplays ([] : Topo) initEnumState = [] :=
      expectedTail_stop [] 0 (by simp)
    rw [h0, hrem]
    simp [List.take_replicate]

/-- Depth bound on the self-recursion of `next_display`: an invocation
performs at most `adapters-not-yet-scanned + 2` nested invocations. -/
theorem next_display_depth_le (T : Topo) :
    ∀ (fuel : Nat) (s : EnumState), T.length - s.adapter_idx ≤ fuel →
      (next_display T s).2.2
        ≤ (T.length - s.adapter_idx) + 1 + (if s.adapter.isSome then 1 else 0) := by
  intro fuel
  induction fuel with
  | zero =>
      intro s hf
      obtain ⟨sad, ai, di⟩ := s
      replace hf : T.length - ai ≤ 0 := hf
      cases sad with
      | none =>
          have hA : ¬ ai < T.length := by omega
          rw [next_display_none_stop T ai di hA]
          show 1 ≤ (T.length - ai) + 1 + 0
          omega
      | some a =>
          show (next_display T ⟨some a, ai, di⟩).2.2 ≤ (T.length - ai) + 1 + 1
          cases hd : (T.getD a [])[di]? with
          | some d =>
              rw [next_display_loaded_yield T a ai di d hd]
              show 1 ≤ (T.length - ai) + 1 + 1
              omega
          | none =>
              rw [next_display_loaded_advance T a ai di hd]
              have hA : ¬ ai + 1 < T.length := by omega
              show (next_display T ⟨none, ai + 1, 0⟩).2.2 + 1 ≤ (T.length - ai) + 1 + 1
              rw [next_display_none_stop T (ai + 1) 0 hA]
              show 1 + 1 ≤ (T.length - ai) + 1 + 1
              omega
  | succ n ihd =>
      intro s hf
      obtain ⟨sad, ai, di⟩ := s
      replace hf : T.length - ai ≤ n + 1 := hf
      have loadedD : ∀ a,
          (next_display T ⟨some a, ai, di⟩).2.2 ≤ (T.length - (ai + 1)) + 2 := by
        intro a
        cases hd : (T.getD a [])[di]? with
        | some d =>
            rw [next_display_loaded_yield T a ai di d hd]
            show 1 ≤ (T.length - (ai + 1)) + 2
            omega
        | none =>
            rw [next_display_loaded_advance T a ai di hd]
            have h2 := ihd ⟨none, ai + 1, 0⟩ (by show T.length - (ai + 1) ≤ n; omega)
            replace h2 : (next_display T ⟨none, ai + 1, 0⟩).2.2
                ≤ (T.length - (ai + 1)) + 1 + 0 := h2
            show (next_display T ⟨none, ai + 1, 0⟩).2.2 + 1
                ≤ (T.length - (ai + 1)) + 2
            omega
      cases sad with
      | none =>
          by_cases hA : ai < T.length
          · rw [next_display_none_load T ai di hA]
            have h3 := loadedD ai
            show (next_display T ⟨some ai, ai, di⟩).2.2 ≤ (T.length - ai) + 1 + 0
            omega
          · rw [next_display_none_stop T ai di hA]
            show 1 ≤ (T.length - ai) + 1 + 0
            omega
      | some a =>
          have h3 := loadedD a
          show (next_display T ⟨some a, ai, di⟩).2.2 ≤ (T.length - ai) + 1 + 1
          omega

/-- On a topology of `k` output-less adapters, the enumerator's first call
self-recurses through all of them: its invocation count from ordinal `a` is
exactly `k - a + 1`. -/
theorem next_display_depth_replicate :
    ∀ (fuel k a : Nat), k - a ≤ fuel → a ≤ k →
      (next_display (List.replicate k ([] : List RECT)) ⟨none, a, 0⟩).2.2
        = (k - a) + 1 := by
  intro fuel
  induction fuel with
  | zero =>
      intro k a hf ha
      have hA : ¬ a < (List.replicate k ([] : List RECT)).length := by
        rw [List.length_replicate]
        omega
      rw [next_display_none_stop _ a 0 hA]
      show 1 = (k - a) + 1
      omega
  | succ n ihd =>
      intro k a hf ha
      by_cases hA : a < k
      · have hA2 : a < (List.replicate k ([] : List RECT)).length := by
          rw [List.length_replicate]
          exact hA
        rw [next_display_none_load _ a 0 hA2]
        have hd : ((List.replicate k ([] : List RECT)).getD a [])[0]? = none := by
          rw [List.getD_eq_getElem?_getD, List.getElem?_replicate, if_pos hA]
          rfl
        rw [next_display_loaded_advance _ a a 0 hd]
        show (next_display (List.replicate k ([] : List RECT)) ⟨none, a + 1, 0⟩).2.2 + 1
            = (k - a) + 1
        rw [ihd k (a + 1) (by omega) (by omega)]
        omega
      · have hA2 : ¬ a < (List.replicate k ([] : List RECT)).length := by
          rw [List.length_replicate]
          exact hA
        rw [next_display_none_stop _ a 0 hA2]
        show 1 = (k - a) + 1
        omega

/-- C7 counterexample: the advance-and-retry step is self-recursion in the
source, and its recursion depth is NOT bounded by any constant over all
backend topologies: for every candidate bound `C`, the topology of `C + 1`
consecutive output-less adapters forces `C + 2` nested invocations. -/
theorem next_display_depth_unbounded :
    ¬ ∃ C : Nat, ∀ T : Topo, (next_display T initEnumState).2.2 ≤ C := by
  rintro ⟨C, h⟩
  have h1 := next_display_depth_replicate (C + 1) (C + 1) 0 (by omega) (by omega)
  have h2 := h (List.replicate (C + 1) [])
  rw [show (initEnumState : EnumState) = ⟨none, 0, 0⟩ from rfl] at h2
  rw [h1] at h2
  omega

/-- C7 amended: `next_display` is a total function on every finite backend
topology (it is well-founded recursion in this embedding), but the source
expresses the adapter-advance step as self-recursion, not a loop: its
nested-invocation count is bounded only linearly — by the number of
adapters not yet scanned plus two — not by a constant. -/
theorem next_display_total_linear_depth (T : Topo) (s : EnumState) :
    (next_display T s).2.2
      ≤ (T.length - s.adapter_idx) + 1 + (if s.adapter.isSome then 1 else 0) :=
  next_display_depth_le T (T.length - s.adapter_idx) s (le_refl _)

end Scraptor
